import Mathlib

/-!
# Verification of the GTFS parser core (`custom_components/zim_slupsk/gtfs_parser.py`)

Shallow embedding of the departure-computation engine:

* Calendar dates are represented by their proleptic Gregorian ordinal
  (`Date.ord`), exactly the value Python's `date.toordinal()` produces;
  `mkDate` implements the standard Gregorian day count so that concrete
  dates such as 2024-03-15 get their true ordinal and weekday.
* Wall-clock instants are represented as `Nat` seconds:
  `ordinal * 86400 + seconds-of-day`.  The source localizes every naive
  datetime with `dt_util.as_local`; for a fixed-offset zone this is a
  monotone bijection from naive wall-clock values, so comparisons and
  `.time()` round-trips behave exactly as on the naive values, which is
  what this count models.
* CSV rows are typed records carrying the fields the source reads.
  A `departure_time` field is modelled by its numeric `HH:MM:SS`
  components (`GtfsTime`); `parseDepTime` mirrors
  `datetime.strptime(_, "%H:%M:%S")`, which accepts hours 0–23,
  minutes 0–59 and seconds 0–59 and raises otherwise.
* Python dicts keyed by id are association lists in insertion order;
  `list.sort(key=...)`, a stable sort by key, is modelled by
  `List.insertionSort` on the corresponding `≤` relation (also stable).
* Fallible paths (exceptions escaping a function) are modelled with
  `Option`: `none` is a raised error.
-/

/-- `True` iff `y` is a Gregorian leap year (Python `calendar.isleap`). -/
def isLeapYear (y : Nat) : Bool :=
  (y % 4 == 0 && y % 100 != 0) || y % 400 == 0

/-- Days in the months preceding month `m` (1-based) of a common year. -/
def daysBeforeMonth (m : Nat) : Nat :=
  match m with
  | 1 => 0 | 2 => 31 | 3 => 59 | 4 => 90 | 5 => 120 | 6 => 151
  | 7 => 181 | 8 => 212 | 9 => 243 | 10 => 273 | 11 => 304 | _ => 334

/-- Proleptic Gregorian ordinal of year-month-day, as Python's
`date.toordinal()`: day 1 is 0001-01-01. -/
def toOrdinal (y m d : Nat) : Nat :=
  365 * (y - 1) + ((y - 1) / 4 - (y - 1) / 100) + (y - 1) / 400
    + daysBeforeMonth m + (if isLeapYear y && decide (m > 2) then 1 else 0) + d

/-- A calendar date, identified by its proleptic Gregorian ordinal. -/
structure Date where
  ord : Nat
deriving DecidableEq, Repr

/-- Build a `Date` from year, month, day. -/
def mkDate (y m d : Nat) : Date := ⟨toOrdinal y m d⟩

/-- Python `date.weekday()`: Monday = 0 … Sunday = 6. -/
def weekday (d : Date) : Nat := (d.ord + 6) % 7

/-- The numeric components of an `"HH:MM:SS"` departure-time string. -/
structure GtfsTime where
  h : Nat
  m : Nat
  s : Nat
deriving DecidableEq, Repr

/-- `datetime.strptime(t, "%H:%M:%S")`: succeeds exactly for hours 0–23,
minutes 0–59, seconds 0–59 (so GTFS post-midnight times like `24:15:00`
raise `ValueError`). -/
def parseDepTime (t : GtfsTime) : Option GtfsTime :=
  if t.h < 24 ∧ t.m < 60 ∧ t.s < 60 then some t else none

/-- Seconds since midnight of a wall-clock time. -/
def secondsOfDay (t : GtfsTime) : Nat := t.h * 3600 + t.m * 60 + t.s

/-- `dt_util.as_local(datetime.combine(d, t))` as a second count. -/
def mkInstant (d : Date) (t : GtfsTime) : Nat := d.ord * 86400 + secondsOfDay t

/-- A row of `stops.txt` (the fields the source reads). -/
structure StopRow where
  stop_name : String
  stop_code : String
  stop_lat : String
  stop_lon : String
deriving DecidableEq, Repr

/-- A row of `stop_times.txt` (the fields the source reads). -/
structure StopTimeRow where
  trip_id : String
  stop_id : String
  departure_time : GtfsTime
deriving DecidableEq, Repr

/-- A row of `trips.txt` (the fields the source reads); the table is keyed
by `trip_id` separately. -/
structure TripRow where
  route_id : String
  trip_headsign : String
  service_id : String
deriving DecidableEq, Repr

/-- A row of `calendar.txt`; the seven day flags are kept as the raw
strings the source compares against `"1"`. -/
structure CalendarRow where
  service_id : String
  monday : String
  tuesday : String
  wednesday : String
  thursday : String
  friday : String
  saturday : String
  sunday : String
  start_date : Date
  end_date : Date
deriving DecidableEq, Repr

/-- A row of `calendar_dates.txt`; `exception_type` is kept as the raw
string the source compares against `"1"` / `"2"`. -/
structure CalendarDateRow where
  service_id : String
  date : Date
  exception_type : String
deriving DecidableEq, Repr

/-- The loaded snapshot `self.data`: dict-valued tables are association
lists in insertion order. -/
structure GTFSData where
  stops : List (String × StopRow)
  stop_times : List StopTimeRow
  trips : List (String × TripRow)
  calendar : List CalendarRow
  calendar_dates : List CalendarDateRow
deriving DecidableEq, Repr

/-- The `calendar_dates` rows matching `(service_id, check_date)`
(the list comprehension at the top of `service_is_active_on_date`). -/
def exceptionMatches (data : GTFSData) (service_id : String) (check_date : Date) :
    List CalendarDateRow :=
  data.calendar_dates.filter fun r =>
    decide (r.service_id = service_id ∧ r.date = check_date)

/-- The `for row in cdates` loop: the first row whose `exception_type` is
`"1"` or `"2"` decides; if no row decides, the result is `False`. -/
def exceptionDecision : List CalendarDateRow → Bool
  | [] => false
  | r :: rs =>
    if r.exception_type = "1" then true
    else if r.exception_type = "2" then false
    else exceptionDecision rs

/-- `mapping = {0: "monday", …}; row.get(mapping.get(weekday))` — the day
flag of a calendar row selected by Python weekday number. -/
def dayValue (c : CalendarRow) (wd : Nat) : String :=
  match wd with
  | 0 => c.monday
  | 1 => c.tuesday
  | 2 => c.wednesday
  | 3 => c.thursday
  | 4 => c.friday
  | 5 => c.saturday
  | _ => c.sunday

/-- The base-calendar decision for one `calendar.txt` row: inside the
inclusive `[start_date, end_date]` range the weekday flag decides,
outside it the service does not run. -/
def calendarRowActive (row : CalendarRow) (check_date : Date) : Bool :=
  if row.start_date.ord ≤ check_date.ord ∧ check_date.ord ≤ row.end_date.ord then
    decide (dayValue row (weekday check_date) = "1")
  else false

/-- `GTFSParser.service_is_active_on_date`: exceptions for the exact date
win; otherwise the first `calendar.txt` row for the service (`crows[0]`)
decides, and no row means inactive. -/
def service_is_active_on_date (data : GTFSData) (service_id : String)
    (check_date : Date) : Bool :=
  if (exceptionMatches data service_id check_date).isEmpty then
    match data.calendar.filter (fun c => decide (c.service_id = service_id)) with
    | [] => false
    | row :: _ => calendarRowActive row check_date
  else
    exceptionDecision (exceptionMatches data service_id check_date)

/-! ## Loading (`GTFSParser.load_data`) -/

/-- The readable content of the GTFS zip archive: its name list and, for
each member table the source reads, the outcome of reading and parsing
it — `none` when doing so raises (undecodable bytes at `.decode`, a
missing required column such as `stop_id` or `trip_id` at row keying,
…), which the blanket `except Exception` turns into a failed load;
`some rows` when it parses, possibly to zero rows. -/
structure ZipArchive where
  names : List String
  stops_rows : Option (List (String × StopRow))
  stop_times_rows : Option (List StopTimeRow)
  trips_rows : Option (List (String × TripRow))
  calendar_dates_rows : Option (List CalendarDateRow)
deriving DecidableEq, Repr

/-- The three members `load_data` requires in the archive. -/
def requiredPresent (z : ZipArchive) : Bool :=
  ["stops.txt", "stop_times.txt", "trips.txt"].all fun f => z.names.contains f

/-- `GTFSParser.load_data`.  Inputs model the environment:
`file_exists` is `os.path.exists(GTFS_FILE_PATH)`; `zipFile` is `none`
when opening the archive raises (`BadZipFile` or unreadable file);
`local_calendar` models the sibling `calendar.txt`: `none` when the file
is absent (treated as an empty table), `some none` when it exists but
reading it raises, `some (some rows)` when it reads.  Every raise inside
the `try` block — opening a member, decoding it, keying its rows — is
caught by the blanket `except` and fails the load, so each consulted
table's `none` outcome yields `none` here.  `calendar_dates.txt` is only
read when its name is present.  The result is `none` on a failed load
(the method returns `False`) and the populated snapshot on success. -/
def load_data (file_exists : Bool) (zipFile : Option ZipArchive)
    (local_calendar : Option (Option (List CalendarRow))) : Option GTFSData :=
  if file_exists then
    match zipFile with
    | none => none
    | some z =>
      if requiredPresent z then
        match z.stops_rows, z.stop_times_rows, z.trips_rows with
        | some stops, some stop_times, some trips =>
          match local_calendar with
          | some none => none
          | some (some rows) =>
            if z.names.contains "calendar_dates.txt" then
              match z.calendar_dates_rows with
              | none => none
              | some cd => some ⟨stops, stop_times, trips, rows, cd⟩
            else some ⟨stops, stop_times, trips, rows, []⟩
          | none =>
            if z.names.contains "calendar_dates.txt" then
              match z.calendar_dates_rows with
              | none => none
              | some cd => some ⟨stops, stop_times, trips, [], cd⟩
            else some ⟨stops, stop_times, trips, [], []⟩
        | _, _, _ => none
      else none
  else none

/-! ## Next departures (`GTFSParser.get_next_departures`) -/

/-- One entry of the per-line departure lists (the dicts appended to
`departures_all`).  The source also carries a display string
`departure_time` that it rewrites for tomorrow's entries; it is derived
from the other fields and not modelled. -/
structure Departure where
  line : String
  direction : String
  service_id : String
  dep_time : GtfsTime
  datetime : Nat
deriving DecidableEq, Repr

/-- Sort key of every `list.sort(key=lambda x: x["datetime"])` call. -/
def depR (a b : Departure) : Prop := a.datetime ≤ b.datetime

instance : DecidableRel depR := fun a b => Nat.decLe a.datetime b.datetime

instance : IsTotal Departure depR := ⟨fun a b => Nat.le_total a.datetime b.datetime⟩

instance : IsTrans Departure depR := ⟨fun _ _ _ => Nat.le_trans⟩

/-- Python `str.replace('/', ' ')`: with a one-character pattern this is
a character-wise substitution. -/
def replaceSlash (s : String) : String :=
  ⟨s.data.map fun c => if c = '/' then ' ' else c⟩

/-- Step 1 of `get_next_departures`: the `departures_all` list before
sorting — for each `stop_times` row at the stop, resolve the trip (with
the source's defaults when the trip id is unknown), parse the departure
time (skipping the row when `strptime` raises), and materialize today's
instant. -/
def collectDepartures (data : GTFSData) (stop_id : String) (today : Date) :
    List Departure :=
  data.stop_times.filterMap fun row =>
    if row.stop_id ≠ stop_id then none
    else
      match parseDepTime row.departure_time with
      | none => none
      | some t =>
        some { line := (match data.trips.lookup row.trip_id with
                        | some tr => tr.route_id
                        | none => "Nieznana"),
               direction := replaceSlash (match data.trips.lookup row.trip_id with
                             | some tr => tr.trip_headsign
                             | none => ""),
               service_id := (match data.trips.lookup row.trip_id with
                              | some tr => tr.service_id
                              | none => ""),
               dep_time := t,
               datetime := mkInstant today t }

/-- The `future_today_by_line[line]` list: entries of the sorted
`departures_all` whose instant is not in the past and whose service is
active today, grouped per line (grouping a sorted list and re-sorting, as
the source does, is the per-line filter of the sorted list). -/
def futureTodayPool (data : GTFSData) (stop_id : String) (now : Nat)
    (line : String) : List Departure :=
  List.insertionSort depR <|
    (List.insertionSort depR (collectDepartures data stop_id ⟨now / 86400⟩)).filter
      fun d => decide (now ≤ d.datetime)
        && service_is_active_on_date data d.service_id ⟨now / 86400⟩
        && decide (d.line = line)

/-- `newdep`: the same wall-clock time re-combined with tomorrow's date. -/
def shiftToTomorrow (tomorrow : Date) (d : Departure) : Departure :=
  { d with datetime := mkInstant tomorrow d.dep_time }

/-- The `tomorrow_map[line]` list: every collected entry shifted to
tomorrow's date, kept when its service is active tomorrow, per line. -/
def tomorrowPool (data : GTFSData) (stop_id : String) (now : Nat)
    (line : String) : List Departure :=
  List.insertionSort depR <|
    (List.insertionSort depR (collectDepartures data stop_id ⟨now / 86400⟩)).filterMap
      fun d =>
        if service_is_active_on_date data d.service_id ⟨now / 86400 + 1⟩
            && decide (d.line = line)
        then some (shiftToTomorrow ⟨now / 86400 + 1⟩ d)
        else none

/-- The two `for dep in …: append; if len ≥ 2: break` loops: take up to
two entries from the today pool, then top up from the tomorrow pool only
while fewer than two entries were found. -/
def fillTwo (a b : List Departure) : List Departure :=
  if (a.take 2).length < 2 then a.take 2 ++ b.take (2 - (a.take 2).length)
  else a.take 2

/-- The result list built for one line of `all_lines`. -/
def nextDepsForLine (data : GTFSData) (stop_id : String) (now : Nat)
    (line : String) : List Departure :=
  fillTwo (futureTodayPool data stop_id now line) (tomorrowPool data stop_id now line)

/-- `GTFSParser.get_next_departures`: the result dict, as an association
list over `all_lines` (the union of the lines occurring in either pool;
Python's set order is unspecified, first-occurrence order is used here),
with lines whose list is empty omitted.  `now` is `dt_util.now()` and
`today = now.date()`. -/
def get_next_departures (data : GTFSData) (stop_id : String) (now : Nat) :
    List (String × List Departure) :=
  (((List.insertionSort depR (collectDepartures data stop_id ⟨now / 86400⟩)).filter
      (fun d => decide (now ≤ d.datetime)
        && service_is_active_on_date data d.service_id ⟨now / 86400⟩)).map
        (fun d => d.line)
    ++ ((List.insertionSort depR (collectDepartures data stop_id ⟨now / 86400⟩)).filter
      (fun d => service_is_active_on_date data d.service_id ⟨now / 86400 + 1⟩)).map
        (fun d => d.line)).dedup.filterMap
    fun line =>
      if (nextDepsForLine data stop_id now line).isEmpty then none
      else some (line, nextDepsForLine data stop_id now line)

/-! ## Week schedule (`GTFSParser.get_departures_for_week`) -/

/-- A calendar event produced for the week view.  `start` and `endT` are
the instants whose ISO strings the source stores; Python sorts by
re-parsing the start string, which is order-isomorphic to sorting by the
instant itself. -/
structure Event where
  title : String
  start : Nat
  endT : Nat
  description : String
  line : String
  latitude : String
  longitude : String
  stop_name : String
  stop_code : String
deriving DecidableEq, Repr

/-- Sort key of the final `events.sort(key=...)`. -/
def evR (a b : Event) : Prop := a.start ≤ b.start

instance : DecidableRel evR := fun a b => Nat.decLe a.start b.start

instance : IsTotal Event evR := ⟨fun a b => Nat.le_total a.start b.start⟩

instance : IsTrans Event evR := ⟨fun _ _ _ => Nat.le_trans⟩

/-- Python `str.capitalize()`: first character uppercased, the rest
lowercased. -/
def pyCapitalize (s : String) : String :=
  match s.data with
  | [] => ""
  | c :: cs => ⟨c.toUpper :: cs.map Char.toLower⟩

/-- The triple loop of `get_departures_for_week` up to the point where an
event would be built: for each of the 7 days and each trip of the line
active that day, the trip's stop-times at the stop whose departure time
parses and whose one-minute event has not already ended.  Each survivor
is returned with its trip row and start instant. -/
def weekCandidates (data : GTFSData) (line stop_id : String) (now : Nat) :
    List (TripRow × Nat) :=
  (List.range 7).flatMap fun day_offset =>
    data.trips.flatMap fun tp =>
      if tp.2.route_id ≠ line then []
      else if !service_is_active_on_date data tp.2.service_id ⟨now / 86400 + day_offset⟩ then []
      else
        data.stop_times.filterMap fun st =>
          if st.trip_id ≠ tp.1 then none
          else if st.stop_id ≠ stop_id then none
          else
            match parseDepTime st.departure_time with
            | none => none
            | some t =>
              if mkInstant ⟨now / 86400 + day_offset⟩ t + 60 < now then none
              else some (tp.2, mkInstant ⟨now / 86400 + day_offset⟩ t)

/-- Construction of the event dict: it reads `self.data["stops"][stop_id]`,
which raises `KeyError` (here `none`) when the stop id is unknown. -/
def mkWeekEvent (data : GTFSData) (line stop_id : String)
    (c : TripRow × Nat) : Option Event :=
  match data.stops.lookup stop_id with
  | none => none
  | some st =>
    some { title := "Linia " ++ line ++ " → "
             ++ replaceSlash (pyCapitalize c.1.trip_headsign),
           start := c.2,
           endT := c.2 + 60,
           description := "Linia " ++ line ++ " → "
             ++ replaceSlash (pyCapitalize c.1.trip_headsign),
           line := line,
           latitude := st.stop_lat,
           longitude := st.stop_lon,
           stop_name := st.stop_name,
           stop_code := st.stop_code }

/-- `GTFSParser.get_departures_for_week`: `none` models the `KeyError`
escaping the method; on success, the accumulated events sorted ascending
by start instant. -/
def get_departures_for_week (data : GTFSData) (line stop_id : String)
    (now : Nat) : Option (List Event) :=
  match (weekCandidates data line stop_id now).mapM (mkWeekEvent data line stop_id) with
  | none => none
  | some evs => some (List.insertionSort evR evs)

/-- The same snapshot with the stop-time rows whose `departure_time` does
not parse as `%H:%M:%S` removed. -/
def dropUnparseableStopTimes (data : GTFSData) : GTFSData :=
  { data with stop_times :=
      data.stop_times.filter fun r => (parseDepTime r.departure_time).isSome }

/-! ## Concrete snapshots for the spec's scenarios and the witnesses -/

/-- Scenario A's calendar row: service `S`, Monday–Friday, all of 2024. -/
def rowMonFri : CalendarRow :=
  ⟨"S", "1", "1", "1", "1", "1", "0", "0", mkDate 2024 1 1, mkDate 2024 12 31⟩

/-- Scenario A: the Mon–Fri calendar row plus a `Removed` exception on
Friday 2024-03-15. -/
def dataA : GTFSData :=
  ⟨[], [], [], [rowMonFri], [⟨"S", mkDate 2024 3 15, "2"⟩]⟩

/-- A snapshot whose exceptions for (`S`, 2024-03-15) are a `Removed` row
followed by an `Added` row. -/
def dataMixed : GTFSData :=
  ⟨[], [], [], [],
   [⟨"S", mkDate 2024 3 15, "2"⟩, ⟨"S", mkDate 2024 3 15, "1"⟩]⟩

/-- A calendar row for `S` with every weekday flag `"0"`. -/
def rowAllOff : CalendarRow :=
  ⟨"S", "0", "0", "0", "0", "0", "0", "0", mkDate 2024 1 1, mkDate 2024 12 31⟩

/-- A calendar row for `S` with every weekday flag `"1"`. -/
def rowAllOn : CalendarRow :=
  ⟨"S", "1", "1", "1", "1", "1", "1", "1", mkDate 2024 1 1, mkDate 2024 12 31⟩

/-- A snapshot with duplicate calendar rows for `S`: the all-off row
first, the all-on row last. -/
def dataDup : GTFSData := ⟨[], [], [], [rowAllOff, rowAllOn], []⟩

/-- The same snapshot keeping only the last (all-on) duplicate. -/
def dataDupLast : GTFSData := ⟨[], [], [], [rowAllOn], []⟩

/-- Scenario B: stop `X` served by line `7` with a 23:50 stop-time whose
service runs today only and a 06:00 stop-time whose service runs
tomorrow only, queried today at 23:55 (today = Monday 2024-01-01). -/
def dataB : GTFSData :=
  ⟨[("X", ⟨"Dworzec", "01", "54.46", "17.03"⟩)],
   [⟨"t1", "X", ⟨23, 50, 0⟩⟩, ⟨"t2", "X", ⟨6, 0, 0⟩⟩],
   [("t1", ⟨"7", "Centrum", "A"⟩), ("t2", ⟨"7", "Centrum", "B"⟩)],
   [],
   [⟨"A", mkDate 2024 1 1, "1"⟩, ⟨"B", mkDate 2024 1 2, "1"⟩]⟩

/-- Scenario B's query instant: today 23:55. -/
def nowB : Nat := mkInstant (mkDate 2024 1 1) ⟨23, 55, 0⟩

/-- Scenario B's expected single result: tomorrow 06:00 on line `7`. -/
def depB : Departure :=
  ⟨"7", "Centrum", "B", ⟨6, 0, 0⟩, mkInstant (mkDate 2024 1 2) ⟨6, 0, 0⟩⟩

/-- Scenario B's expected single week event: tomorrow 06:00. -/
def evB : Event :=
  ⟨"Linia 7 → Centrum", mkInstant (mkDate 2024 1 2) ⟨6, 0, 0⟩,
   mkInstant (mkDate 2024 1 2) ⟨6, 0, 0⟩ + 60, "Linia 7 → Centrum", "7",
   "54.46", "17.03", "Dworzec", "01"⟩

/-- An archive holding all three required tables, each parsing cleanly
to zero rows. -/
def emptyZip : ZipArchive :=
  ⟨["stops.txt", "stop_times.txt", "trips.txt"],
   some [], some [], some [], some []⟩

/-- A snapshot with one trip on line `9` and no calendar data at all, so
no service is ever active. -/
def dataNoService : GTFSData :=
  ⟨[], [], [("t", ⟨"9", "Dom", "Z"⟩)], [], []⟩

example : service_is_active_on_date dataA "S" (mkDate 2024 3 15) = false := by decide
example : service_is_active_on_date dataA "S" (mkDate 2024 3 14) = true := by decide
example : service_is_active_on_date dataMixed "S" (mkDate 2024 3 15) = false := by decide
example : service_is_active_on_date dataDup "S" (mkDate 2024 3 14) = false := by decide
example : service_is_active_on_date dataDupLast "S" (mkDate 2024 3 14) = true := by decide
example : get_next_departures dataB "X" nowB = [("7", [depB])] := by decide
example : get_departures_for_week dataB "7" "X" nowB = some [evB] := by decide
example : (load_data true (some emptyZip) none).isSome = true := by decide
example : get_departures_for_week dataNoService "9" "X" 0 = some [] := by decide

/-! ## Helper lemmas -/

theorem collect_datetime_eq {data : GTFSData} {s : String} {today : Date}
    {d : Departure} (h : d ∈ collectDepartures data s today) :
    d.datetime = today.ord * 86400 + secondsOfDay d.dep_time
      ∧ secondsOfDay d.dep_time < 86400 := by
  unfold collectDepartures at h
  rw [List.mem_filterMap] at h
  obtain ⟨row, -, hrow⟩ := h
  split at hrow
  · exact absurd hrow (by simp)
  · revert hrow
    cases hp : parseDepTime row.departure_time with
    | none => intro hrow; exact absurd hrow (by simp)
    | some t =>
      intro hrow
      obtain rfl := Option.some.injEq .. ▸ hrow
      unfold parseDepTime at hp
      split at hp
      · rename_i hcond
        obtain rfl : row.departure_time = t := Option.some.injEq .. ▸ hp
        refine ⟨rfl, ?_⟩
        show secondsOfDay row.departure_time < 86400
        unfold secondsOfDay
        omega
      · exact absurd hp (by simp)

theorem mem_futureTodayPool {data : GTFSData} {s : String} {now : Nat}
    {line : String} {d : Departure} :
    d ∈ futureTodayPool data s now line ↔
      d ∈ collectDepartures data s ⟨now / 86400⟩ ∧ now ≤ d.datetime
        ∧ service_is_active_on_date data d.service_id ⟨now / 86400⟩ = true
        ∧ d.line = line := by
  unfold futureTodayPool
  simp [List.mem_filter, and_assoc]

theorem mem_tomorrowPool {data : GTFSData} {s : String} {now : Nat}
    {line : String} {d : Departure} :
    d ∈ tomorrowPool data s now line ↔
      ∃ d0, d0 ∈ collectDepartures data s ⟨now / 86400⟩
        ∧ service_is_active_on_date data d0.service_id ⟨now / 86400 + 1⟩ = true
        ∧ d0.line = line ∧ d = shiftToTomorrow ⟨now / 86400 + 1⟩ d0 := by
  unfold tomorrowPool
  simp only [List.mem_insertionSort, List.mem_filterMap, Bool.and_eq_true,
    decide_eq_true_eq, Option.ite_none_right_eq_some, Option.some.injEq]
  constructor
  · rintro ⟨d0, h0, ⟨ha, hl⟩, hd⟩
    exact ⟨d0, h0, ha, hl, hd.symm⟩
  · rintro ⟨d0, h0, ha, hl, hd⟩
    exact ⟨d0, h0, ⟨ha, hl⟩, hd.symm⟩

theorem fillTwo_length (a b : List Departure) : (fillTwo a b).length ≤ 2 := by
  unfold fillTwo
  have h1 := List.length_take_le 2 a
  have h2 := List.length_take_le (2 - (a.take 2).length) b
  split
  · rw [List.length_append]; omega
  · omega

theorem fillTwo_sorted {a b : List Departure} (ha : List.Sorted depR a)
    (hb : List.Sorted depR b) (hab : ∀ x ∈ a, ∀ y ∈ b, depR x y) :
    List.Sorted depR (fillTwo a b) := by
  unfold fillTwo
  split
  · exact List.pairwise_append.mpr
      ⟨ha.sublist (List.take_sublist _ _), hb.sublist (List.take_sublist _ _),
       fun x hx y hy => hab x (List.take_subset _ _ hx) y (List.take_subset _ _ hy)⟩
  · exact ha.sublist (List.take_sublist _ _)

theorem pool_cross {data : GTFSData} {s : String} {now : Nat} {line : String} :
    ∀ x ∈ futureTodayPool data s now line, ∀ y ∈ tomorrowPool data s now line,
      depR x y := by
  intro x hx y hy
  obtain ⟨hxc, -, -, -⟩ := mem_futureTodayPool.mp hx
  obtain ⟨y0, hy0, -, -, rfl⟩ := mem_tomorrowPool.mp hy
  obtain ⟨hxe, hxb⟩ := collect_datetime_eq hxc
  have hxe' : x.datetime = now / 86400 * 86400 + secondsOfDay x.dep_time := hxe
  show x.datetime ≤ (shiftToTomorrow ⟨now / 86400 + 1⟩ y0).datetime
  have hy' : (shiftToTomorrow ⟨now / 86400 + 1⟩ y0).datetime
      = (now / 86400 + 1) * 86400 + secondsOfDay y0.dep_time := rfl
  omega

theorem mem_get_next {data : GTFSData} {s : String} {now : Nat}
    {line : String} {l : List Departure}
    (h : (line, l) ∈ get_next_departures data s now) :
    l = nextDepsForLine data s now line ∧ l ≠ [] := by
  unfold get_next_departures at h
  rw [List.mem_filterMap] at h
  obtain ⟨a, -, ha⟩ := h
  split at ha
  · exact absurd ha (by simp)
  · rename_i hne
    obtain ⟨rfl, rfl⟩ := Prod.mk.injEq .. ▸ Option.some.injEq .. ▸ ha
    exact ⟨rfl, by simpa using hne⟩

theorem exceptionDecision_all_removed :
    ∀ {l : List CalendarDateRow}, (∀ r ∈ l, r.exception_type = "2") →
      exceptionDecision l = false := by
  intro l h
  induction l with
  | nil => rfl
  | cons r rs ih =>
    have hr := h r (List.mem_cons_self r rs)
    unfold exceptionDecision
    rw [if_neg (by rw [hr]; decide), if_pos hr]

theorem exceptionDecision_all_added :
    ∀ {l : List CalendarDateRow}, l ≠ [] → (∀ r ∈ l, r.exception_type = "1") →
      exceptionDecision l = true := by
  intro l hne h
  cases l with
  | nil => exact absurd rfl hne
  | cons r rs =>
    have hr := h r (List.mem_cons_self r rs)
    unfold exceptionDecision
    rw [if_pos hr]

theorem lookup_mem {β : Type} :
    ∀ {l : List (String × β)} {k : String} {v : β},
      l.lookup k = some v → (k, v) ∈ l := by
  intro l
  induction l with
  | nil => intro k v h; exact absurd h (by simp [List.lookup])
  | cons p ps ih =>
    intro k v h
    unfold List.lookup at h
    revert h
    cases hk : k == p.1
    · intro h; exact List.mem_cons_of_mem p (ih h)
    · intro h
      obtain rfl := Option.some.injEq .. ▸ h
      obtain rfl : k = p.1 := eq_of_beq hk
      rw [Prod.mk.eta]
      exact List.mem_cons_self p ps

theorem mapM_option_mem {α β : Type} (f : α → Option β) :
    ∀ {l : List α} {ys : List β}, l.mapM f = some ys →
      ∀ y ∈ ys, ∃ x ∈ l, f x = some y := by
  intro l
  induction l with
  | nil =>
    intro ys h y hy
    rw [List.mapM_nil] at h
    obtain rfl : [] = ys := Option.some.injEq .. ▸ h
    exact absurd hy (by simp)
  | cons x xs ih =>
    intro ys h y hy
    rw [List.mapM_cons] at h
    revert h
    cases hfx : f x with
    | none => intro h; exact absurd h (by simp)
    | some y0 =>
      cases hrest : xs.mapM f with
      | none => intro h; exact absurd h (by simp)
      | some ys0 =>
        intro h
        simp only [Option.bind_eq_bind, Option.some_bind] at h
        obtain rfl : y0 :: ys0 = ys := Option.some.injEq .. ▸ h
        rcases List.mem_cons.mp hy with rfl | hmem
        · exact ⟨x, List.mem_cons_self x xs, hfx⟩
        · obtain ⟨x', hx', hfx'⟩ := ih hrest y hmem
          exact ⟨x', List.mem_cons_of_mem x hx', hfx'⟩

theorem weekCandidates_bound {data : GTFSData} {line s : String} {now : Nat} :
    ∀ c ∈ weekCandidates data line s now,
      now / 86400 * 86400 ≤ c.2 ∧ c.2 < (now / 86400 + 7) * 86400
        ∧ ¬(c.2 + 60 < now) := by
  intro c hc
  unfold weekCandidates at hc
  rw [List.mem_flatMap] at hc
  obtain ⟨off, hoff, hc⟩ := hc
  rw [List.mem_range] at hoff
  rw [List.mem_flatMap] at hc
  obtain ⟨tp, -, hc⟩ := hc
  split at hc
  · exact absurd hc (by simp)
  · split at hc
    · exact absurd hc (by simp)
    · rw [List.mem_filterMap] at hc
      obtain ⟨st, -, hst⟩ := hc
      split at hst
      · exact absurd hst (by simp)
      · split at hst
        · exact absurd hst (by simp)
        · revert hst
          cases hp : parseDepTime st.departure_time with
          | none => intro hst; exact absurd hst (by simp)
          | some t =>
            intro hst
            have hst' : (if mkInstant ⟨now / 86400 + off⟩ t + 60 < now then none
                else some (tp.2, mkInstant ⟨now / 86400 + off⟩ t)) = some c := hst
            revert hst'
            split
            · intro hst'; exact absurd hst' (by simp)
            · rename_i hlive
              intro hst'
              obtain rfl := Option.some.injEq .. ▸ hst'
              unfold parseDepTime at hp
              split at hp
              · rename_i hcond
                obtain rfl : st.departure_time = t := Option.some.injEq .. ▸ hp
                have h2 : ((tp.2, mkInstant ⟨now / 86400 + off⟩ st.departure_time) :
                    TripRow × Nat).2
                    = (now / 86400 + off) * 86400 + secondsOfDay st.departure_time := rfl
                have hs : secondsOfDay st.departure_time < 86400 := by
                  unfold secondsOfDay; omega
                have hl : ¬((now / 86400 + off) * 86400 + secondsOfDay st.departure_time + 60
                    < now) := by
                  have he : mkInstant ⟨now / 86400 + off⟩ st.departure_time
                      = (now / 86400 + off) * 86400 + secondsOfDay st.departure_time := rfl
                  rw [he] at hlive
                  exact hlive
                refine ⟨?_, ?_, ?_⟩
                · rw [h2]; omega
                · rw [h2]; omega
                · rw [h2]; omega
              · exact absurd hp (by simp)

theorem week_event_shape {data : GTFSData} {line s : String} {now : Nat}
    {evs : List Event} (h : get_departures_for_week data line s now = some evs) :
    List.Sorted evR evs
      ∧ ∀ e ∈ evs, ∃ c ∈ weekCandidates data line s now,
          e.start = c.2 ∧ e.endT = c.2 + 60 := by
  unfold get_departures_for_week at h
  revert h
  cases hm : (weekCandidates data line s now).mapM (mkWeekEvent data line s) with
  | none => intro h; exact absurd h (by simp)
  | some evs0 =>
    intro h
    obtain rfl := Option.some.injEq .. ▸ h
    refine ⟨List.sorted_insertionSort evR evs0, ?_⟩
    intro e he
    rw [List.mem_insertionSort] at he
    obtain ⟨c, hcmem, hce⟩ := mapM_option_mem _ hm e he
    refine ⟨c, hcmem, ?_⟩
    unfold mkWeekEvent at hce
    revert hce
    cases data.stops.lookup s with
    | none => intro hce; exact absurd hce (by simp)
    | some st =>
      intro hce
      obtain rfl := Option.some.injEq .. ▸ hce
      exact ⟨rfl, rfl⟩

theorem filterMap_filter_eq {α β : Type} (f : α → Option β) (q : α → Bool)
    (hq : ∀ x, q x = false → f x = none) :
    ∀ l : List α, (l.filter q).filterMap f = l.filterMap f := by
  intro l
  induction l with
  | nil => rfl
  | cons x xs ih =>
    cases hx : q x
    · rw [List.filter_cons_of_neg (by simp [hx]), List.filterMap_cons, hq x hx, ih]
    · rw [List.filter_cons_of_pos (by simp [hx]), List.filterMap_cons, List.filterMap_cons,
        ih]

theorem collect_drop (data : GTFSData) (s : String) (today : Date) :
    collectDepartures (dropUnparseableStopTimes data) s today
      = collectDepartures data s today := by
  show ((data.stop_times.filter fun r => (parseDepTime r.departure_time).isSome).filterMap _)
    = data.stop_times.filterMap _
  apply filterMap_filter_eq
  intro row hrow
  have hp : parseDepTime row.departure_time = none :=
    Option.not_isSome_iff_eq_none.mp (by simp [hrow])
  show (if row.stop_id ≠ s then none
    else match parseDepTime row.departure_time with
      | none => none
      | some t => some _) = none
  rw [hp]
  split <;> rfl

theorem next_drop (data : GTFSData) (s : String) (now : Nat) :
    get_next_departures (dropUnparseableStopTimes data) s now
      = get_next_departures data s now := by
  unfold get_next_departures nextDepsForLine futureTodayPool tomorrowPool
  rw [collect_drop]
  rfl

theorem weekCandidates_drop (data : GTFSData) (line s : String) (now : Nat) :
    weekCandidates (dropUnparseableStopTimes data) line s now
      = weekCandidates data line s now := by
  unfold weekCandidates
  refine congrArg (List.flatMap (List.range 7)) (funext fun off => ?_)
  refine congrArg (List.flatMap data.trips) (funext fun tp => ?_)
  have hstop : List.filterMap
      (fun st =>
        if st.trip_id ≠ tp.1 then none
        else if st.stop_id ≠ s then none
        else
          match parseDepTime st.departure_time with
          | none => none
          | some t =>
            if mkInstant ⟨now / 86400 + off⟩ t + 60 < now then none
            else some (tp.2, mkInstant ⟨now / 86400 + off⟩ t))
      (dropUnparseableStopTimes data).stop_times
      = List.filterMap
      (fun st =>
        if st.trip_id ≠ tp.1 then none
        else if st.stop_id ≠ s then none
        else
          match parseDepTime st.departure_time with
          | none => none
          | some t =>
            if mkInstant ⟨now / 86400 + off⟩ t + 60 < now then none
            else some (tp.2, mkInstant ⟨now / 86400 + off⟩ t))
      data.stop_times := by
    show (data.stop_times.filter _).filterMap _ = _
    apply filterMap_filter_eq
    intro st hst
    have hp : parseDepTime st.departure_time = none :=
      Option.not_isSome_iff_eq_none.mp (by simp [hst])
    show (if st.trip_id ≠ tp.1 then none
      else if st.stop_id ≠ s then none
      else match parseDepTime st.departure_time with
        | none => none
        | some t =>
          if mkInstant ⟨now / 86400 + off⟩ t + 60 < now then none
          else some (tp.2, mkInstant ⟨now / 86400 + off⟩ t)) = none
    rw [hp]
    split
    · rfl
    · split <;> rfl
  rw [hstop]
  rfl

theorem week_drop (data : GTFSData) (line s : String) (now : Nat) :
    get_departures_for_week (dropUnparseableStopTimes data) line s now
      = get_departures_for_week data line s now := by
  unfold get_departures_for_week
  rw [weekCandidates_drop]
  rfl

/-! ## Claims -/

/-- C1, counterexample: with matching exceptions `[Removed, Added]` for
(`S`, 2024-03-15), an `Added` exception matches yet
`service_is_active_on_date` returns `false` — the claim's
order-independent "any Added wins" rule does not hold. -/
theorem C1_counterexample :
    ((exceptionMatches dataMixed "S" (mkDate 2024 3 15)).any
        fun r => decide (r.exception_type = "1")) = true
    ∧ service_is_active_on_date dataMixed "S" (mkDate 2024 3 15) = false := by
  decide

/-- C1, amended: when at least one exception row matches (service, date),
the resolver decides from the matching exceptions alone — the base
calendar is never consulted (replacing it changes nothing) — and the
*first* matching exception whose kind is Added or Removed decides
(`exceptionDecision`); in particular all-Removed gives inactive and
all-Added gives active, but with mixed kinds row order matters. -/
theorem C1_exception_priority :
    ∀ (data : GTFSData) (sid : String) (d : Date),
      exceptionMatches data sid d ≠ [] →
      (∀ cal : List CalendarRow,
          service_is_active_on_date { data with calendar := cal } sid d
            = exceptionDecision (exceptionMatches data sid d))
      ∧ ((∀ r ∈ exceptionMatches data sid d, r.exception_type = "2") →
          service_is_active_on_date data sid d = false)
      ∧ ((∀ r ∈ exceptionMatches data sid d, r.exception_type = "1") →
          service_is_active_on_date data sid d = true) := by
  intro data sid d hne
  have hkey : ∀ dt : GTFSData, exceptionMatches dt sid d = exceptionMatches data sid d →
      service_is_active_on_date dt sid d
        = exceptionDecision (exceptionMatches data sid d) := by
    intro dt hdt
    unfold service_is_active_on_date
    rw [hdt, if_neg (by simp [hne])]
  refine ⟨fun cal => hkey _ rfl, ?_, ?_⟩
  · intro hall
    rw [hkey data rfl]
    exact exceptionDecision_all_removed hall
  · intro hall
    rw [hkey data rfl]
    exact exceptionDecision_all_added hne hall

/-- C1, witness: the amended theorem applied to Scenario A's snapshot on
2024-03-15, where one Removed exception matches. -/
theorem C1_witness :
    service_is_active_on_date { dataA with calendar := [] } "S" (mkDate 2024 3 15)
        = exceptionDecision (exceptionMatches dataA "S" (mkDate 2024 3 15))
    ∧ service_is_active_on_date dataA "S" (mkDate 2024 3 15) = false :=
  ⟨(C1_exception_priority dataA "S" (mkDate 2024 3 15) (by decide)).1 [],
   (C1_exception_priority dataA "S" (mkDate 2024 3 15) (by decide)).2.1 (by decide)⟩

/-- C2: with no matching exception, the resolver falls back to the base
calendar: no row for the service gives inactive; with a (unique) row,
dates outside the inclusive `[start_date, end_date]` range give inactive
and dates inside are active iff the row's flag for the date's Python
weekday (Monday=0 … Sunday=6) is `"1"`.  Scenario A: Mon–Fri calendar
over 2024 plus a Removed exception on Friday 2024-03-15 gives inactive on
2024-03-15 and active on Thursday 2024-03-14. -/
theorem C2_calendar_fallback :
    (∀ (data : GTFSData) (sid : String) (d : Date),
        exceptionMatches data sid d = [] →
        (data.calendar.filter (fun c => decide (c.service_id = sid)) = [] →
            service_is_active_on_date data sid d = false)
        ∧ (∀ row : CalendarRow,
            data.calendar.filter (fun c => decide (c.service_id = sid)) = [row] →
            (¬(row.start_date.ord ≤ d.ord ∧ d.ord ≤ row.end_date.ord) →
                service_is_active_on_date data sid d = false)
            ∧ ((row.start_date.ord ≤ d.ord ∧ d.ord ≤ row.end_date.ord) →
                (service_is_active_on_date data sid d = true
                  ↔ dayValue row (weekday d) = "1"))))
    ∧ service_is_active_on_date dataA "S" (mkDate 2024 3 15) = false
    ∧ service_is_active_on_date dataA "S" (mkDate 2024 3 14) = true := by
  refine ⟨?_, by decide, by decide⟩
  intro data sid d hexc
  have hif : service_is_active_on_date data sid d =
      match data.calendar.filter (fun c => decide (c.service_id = sid)) with
      | [] => false
      | row :: _ => calendarRowActive row d := by
    unfold service_is_active_on_date
    rw [hexc]
    rfl
  constructor
  · intro hcal
    rw [hif, hcal]
  · intro row hcal
    constructor
    · intro hout
      rw [hif, hcal]
      show calendarRowActive row d = false
      unfold calendarRowActive
      rw [if_neg hout]
    · intro hin
      rw [hif, hcal]
      show calendarRowActive row d = true ↔ _
      unfold calendarRowActive
      rw [if_pos hin]
      simp

/-- C2, witness: the fallback applied to Scenario A's snapshot on
Thursday 2024-03-14 (no exception matches; the Mon–Fri row is the unique
calendar row and the date is in range). -/
theorem C2_witness :
    service_is_active_on_date dataA "S" (mkDate 2024 3 14) = true
      ↔ dayValue rowMonFri (weekday (mkDate 2024 3 14)) = "1" :=
  ((C2_calendar_fallback.1 dataA "S" (mkDate 2024 3 14) (by decide)).2 rowMonFri
    (by decide)).2 (by decide)

/-- C7, counterexample: with duplicate calendar rows for `S` (first row
all-off, last row all-on), the resolver reports inactive although the
snapshot keeping only the last row reports active — so the *last* row
does not take effect. -/
theorem C7_counterexample :
    service_is_active_on_date dataDup "S" (mkDate 2024 3 14) = false
    ∧ service_is_active_on_date dataDupLast "S" (mkDate 2024 3 14) = true
    ∧ dataDup.calendar.getLast? = some rowAllOn := by
  decide

/-- C7, amended: with duplicate calendar rows for a service, the *first*
matching row (`crows[0]`) takes effect in the base-calendar fallback,
whatever rows follow it. -/
theorem C7_first_row_wins :
    ∀ (data : GTFSData) (sid : String) (d : Date) (row : CalendarRow)
      (rest : List CalendarRow),
      exceptionMatches data sid d = [] →
      data.calendar.filter (fun c => decide (c.service_id = sid)) = row :: rest →
      service_is_active_on_date data sid d = calendarRowActive row d := by
  intro data sid d row rest hexc hcal
  unfold service_is_active_on_date
  rw [hexc, hcal]
  rfl

/-- C7, witness: the amended theorem applied to the duplicate-row
snapshot — the first (all-off) row decides. -/
theorem C7_witness :
    service_is_active_on_date dataDup "S" (mkDate 2024 3 14)
      = calendarRowActive rowAllOff (mkDate 2024 3 14) :=
  C7_first_row_wins dataDup "S" (mkDate 2024 3 14) rowAllOff [rowAllOn]
    (by decide) (by decide)

/-- C3: every per-line result list equals the two-pool fill
(`fillTwo`: today's pool first, topped up from tomorrow's pool only while
shorter than 2), where the today pool holds exactly the collected entries
with instant ≥ now whose service is active today, and the tomorrow pool
holds exactly the collected entries shifted to tomorrow's date whose
service is active tomorrow.  In the Scenario B configuration (today's
only departure 23:50, queried 23:55), line `7` gets tomorrow 06:00 as
its first and only entry. -/
theorem C3_two_pool_fill :
    (∀ (data : GTFSData) (s : String) (now : Nat) (line : String)
        (l : List Departure),
        (line, l) ∈ get_next_departures data s now →
        l = fillTwo (futureTodayPool data s now line) (tomorrowPool data s now line))
    ∧ (∀ (data : GTFSData) (s : String) (now : Nat) (line : String) (d : Departure),
        d ∈ futureTodayPool data s now line ↔
          d ∈ collectDepartures data s ⟨now / 86400⟩ ∧ now ≤ d.datetime
            ∧ service_is_active_on_date data d.service_id ⟨now / 86400⟩ = true
            ∧ d.line = line)
    ∧ (∀ (data : GTFSData) (s : String) (now : Nat) (line : String) (d : Departure),
        d ∈ tomorrowPool data s now line ↔
          ∃ d0, d0 ∈ collectDepartures data s ⟨now / 86400⟩
            ∧ service_is_active_on_date data d0.service_id ⟨now / 86400 + 1⟩ = true
            ∧ d0.line = line ∧ d = shiftToTomorrow ⟨now / 86400 + 1⟩ d0)
    ∧ get_next_departures dataB "X" nowB = [("7", [depB])] := by
  refine ⟨?_, ?_, ?_, by decide⟩
  · intro data s now line l h
    exact (mem_get_next h).1
  · intro data s now line d
    exact mem_futureTodayPool
  · intro data s now line d
    exact mem_tomorrowPool

/-- C3, witness: the fill equation applied to Scenario B's single result
entry. -/
theorem C3_witness :
    (("7", [depB]) ∈ get_next_departures dataB "X" nowB)
    ∧ [depB] = fillTwo (futureTodayPool dataB "X" nowB "7")
        (tomorrowPool dataB "X" nowB "7") :=
  ⟨by decide, C3_two_pool_fill.1 dataB "X" nowB "7" [depB] (by decide)⟩

/-- C4: every per-line list returned by `get_next_departures` has at most
2 entries and is ordered by departure instant ascending
(non-decreasing). -/
theorem C4_cap_and_order :
    ∀ (data : GTFSData) (s : String) (now : Nat) (line : String)
      (l : List Departure),
      (line, l) ∈ get_next_departures data s now →
      l.length ≤ 2 ∧ List.Sorted depR l := by
  intro data s now line l h
  obtain ⟨rfl, -⟩ := mem_get_next h
  exact ⟨fillTwo_length _ _,
    fillTwo_sorted (List.sorted_insertionSort depR _)
      (List.sorted_insertionSort depR _) pool_cross⟩

/-- C4, witness: the cap and ordering applied to Scenario B's single
result entry. -/
theorem C4_witness :
    (("7", [depB]) ∈ get_next_departures dataB "X" nowB)
    ∧ ([depB].length ≤ 2 ∧ List.Sorted depR [depB]) :=
  ⟨by decide, C4_cap_and_order dataB "X" nowB "7" [depB] (by decide)⟩

/-- C5: every successful `get_departures_for_week` result is sorted
ascending by start instant, every event lasts exactly 1 minute
(`end = start + 60 s`), no event's end instant is before the current
instant, and every event starts inside the rolling 7-day window
[today 00:00, today+7 00:00). -/
theorem C5_week_window :
    ∀ (data : GTFSData) (line s : String) (now : Nat) (evs : List Event),
      get_departures_for_week data line s now = some evs →
      List.Sorted evR evs
      ∧ (∀ e ∈ evs, e.endT = e.start + 60)
      ∧ (∀ e ∈ evs, ¬(e.endT < now))
      ∧ (∀ e ∈ evs, now / 86400 * 86400 ≤ e.start
          ∧ e.start < (now / 86400 + 7) * 86400) := by
  intro data line s now evs h
  obtain ⟨hsorted, hshape⟩ := week_event_shape h
  refine ⟨hsorted, ?_, ?_, ?_⟩
  · intro e he
    obtain ⟨c, -, hs, he'⟩ := hshape e he
    rw [he', hs]
  · intro e he
    obtain ⟨c, hc, -, he'⟩ := hshape e he
    obtain ⟨-, -, hlive⟩ := weekCandidates_bound c hc
    rw [he']
    exact hlive
  · intro e he
    obtain ⟨c, hc, hs, -⟩ := hshape e he
    obtain ⟨h1, h2, -⟩ := weekCandidates_bound c hc
    rw [hs]
    exact ⟨h1, h2⟩

/-- C5, witness: the week-schedule contract applied to Scenario B's
single event (tomorrow 06:00). -/
theorem C5_witness :
    (get_departures_for_week dataB "7" "X" nowB = some [evB])
    ∧ (List.Sorted evR [evB]
       ∧ (∀ e ∈ [evB], e.endT = e.start + 60)
       ∧ (∀ e ∈ [evB], ¬(e.endT < nowB))
       ∧ (∀ e ∈ [evB], nowB / 86400 * 86400 ≤ e.start
           ∧ e.start < (nowB / 86400 + 7) * 86400)) :=
  ⟨by decide, C5_week_window dataB "7" "X" nowB [evB] (by decide)⟩

/-- C8: having no qualifying departures is never an error — every entry
of the `get_next_departures` mapping has a nonempty list, a line whose
fill is empty is absent from the mapping, and a week query with no
active service anywhere in the 7-day window returns the empty list
(in particular it never reaches the stop lookup that could raise). -/
theorem C8_empty_results_not_error :
    (∀ (data : GTFSData) (s : String) (now : Nat) (p : String × List Departure),
        p ∈ get_next_departures data s now → p.2 ≠ [])
    ∧ (∀ (data : GTFSData) (s : String) (now : Nat) (line : String),
        nextDepsForLine data s now line = [] →
        (get_next_departures data s now).lookup line = none)
    ∧ (∀ (data : GTFSData) (line s : String) (now : Nat),
        (∀ off ∈ List.range 7, ∀ tp ∈ data.trips, tp.2.route_id = line →
            service_is_active_on_date data tp.2.service_id ⟨now / 86400 + off⟩
              = false) →
        get_departures_for_week data line s now = some []) := by
  refine ⟨?_, ?_, ?_⟩
  · intro data s now p h
    obtain ⟨line, l⟩ := p
    exact (mem_get_next h).2
  · intro data s now line hempty
    cases hl : (get_next_departures data s now).lookup line with
    | none => rfl
    | some l =>
      obtain ⟨heq, hne⟩ := mem_get_next (lookup_mem hl)
      exact absurd (heq.trans hempty) hne
  · intro data line s now hinactive
    have hcand : weekCandidates data line s now = [] := by
      unfold weekCandidates
      rw [List.flatMap_eq_nil_iff]
      intro off hoff
      rw [List.flatMap_eq_nil_iff]
      intro tp htp
      by_cases hroute : tp.2.route_id ≠ line
      · rw [if_pos hroute]
      · rw [if_neg hroute,
          hinactive off hoff tp htp (not_not.mp hroute)]
        rfl
    unfold get_departures_for_week
    rw [hcand]
    rfl

/-- C8, witness: applied concretely — a snapshot with no calendar data
yields `some []` for the week query; an absent line is missing from the
Scenario B mapping; Scenario B's present entry is nonempty. -/
theorem C8_witness :
    get_departures_for_week dataNoService "9" "X" 0 = some []
    ∧ (get_next_departures dataB "X" nowB).lookup "5" = none
    ∧ ("7", [depB]).2 ≠ [] :=
  ⟨C8_empty_results_not_error.2.2 dataNoService "9" "X" 0 (by decide),
   C8_empty_results_not_error.2.1 dataB "X" nowB "5" (by decide),
   C8_empty_results_not_error.1 dataB "X" nowB ("7", [depB]) (by decide)⟩

/-- C9: both query operations are deterministic functions of the loaded
snapshot and the current instant, so two successive calls at the same
instant with no reload return identical results (in this embedding the
snapshot is an explicit immutable value and `now` an explicit input). -/
theorem C9_deterministic :
    ∀ (data : GTFSData) (s line : String) (now : Nat),
      get_next_departures data s now = get_next_departures data s now
      ∧ get_departures_for_week data line s now
          = get_departures_for_week data line s now :=
  fun _ _ _ _ => ⟨rfl, rfl⟩

/-- C10: a `departure_time` that does not parse as `%H:%M:%S` — such as
the post-midnight `24:15:00` — is skipped row-by-row: both queries return
exactly what they return on the feed with those rows removed, and such
times are never rolled over into the next day. -/
theorem C10_unparseable_rows_skipped :
    parseDepTime ⟨24, 15, 0⟩ = none
    ∧ (∀ (data : GTFSData) (s : String) (now : Nat),
        get_next_departures data s now
          = get_next_departures (dropUnparseableStopTimes data) s now)
    ∧ (∀ (data : GTFSData) (line s : String) (now : Nat),
        get_departures_for_week data line s now
          = get_departures_for_week (dropUnparseableStopTimes data) line s now) :=
  ⟨by decide, fun data s now => (next_drop data s now).symm,
   fun data line s now => (week_drop data line s now).symm⟩
